import Mathlib

/-!
# Purley Padel App — verification of the result-recording and fixture-generation engine

Shallow embedding of `src/server.js` (and the schema in `src/init.sql`).
`src/server.js` contains two successive implementations of the same Express
app (separated by a document marker); we embed both:

* variant **A** (first copy, lines 1–321): the standalone validator
  `computeSetsFromGrid` with the plausibility ("looks like a set") rule,
  a result-recording route whose reversal step subtracts the stored set
  counts without clamping, a fallback that uses `player1_score` /
  `player2_score` directly as set counts, and fixture generation that
  resets player standings;
* variant **B** (second copy, lines 321–673): inline grid validation
  without the plausibility rule, a reversal step that clamps `played`
  (`GREATEST(played-1,0)`) and has a legacy fallback
  (winner: played-1/won-1/points-3, loser: played-1/lost-1, all clamped)
  for rows whose `player1_sets`/`player2_sets` are not integers, a
  fallback wrapping old payloads as a one-set grid, and fixture
  generation without the standings reset.

JavaScript dynamic values are restricted to the typed domain the claims
quantify over: grid entries are pairs of mathematical integers (`Int`),
nullable DB columns are `Option`-valued, and absent request fields are
`none`.  Each handler runs inside a SQL transaction
(`BEGIN … COMMIT` / `ROLLBACK` on error), so a handler is embedded as a
pure function returning `Except`: `.ok` carries the committed post-state,
`.error` means every write of the attempt was rolled back and the stored
state is unchanged (made explicit by the `run…` wrappers below).
-/

/-- Validation / request errors thrown (or returned as HTTP 400/404) by
`src/server.js`, named after the spec's error taxonomy (§7).  Each
constructor corresponds to one `throw new Error(...)` or early
`res.status(4xx)` return in the source:
* `invalidGrid` — "set_scores must be a non-empty array" / "Expected set_scores: [[p1,p2], ...]"
* `tooManySets` — "Maximum of 3 sets" / "A maximum of 3 sets is allowed"
* `malformedSet` — "Each set must be [team1, team2]" / "Set scores must be integers" / "Set scores must be >= 0"
* `tiedSet a b` — "Set cannot be tied" / "A set cannot end in a tie"
* `implausibleSetScore a b` — "Invalid set score a-b. Use e.g. 6-0, 6-4, 7-5, 7-6"
* `drawNotAllowed` — "Match result cannot be a draw" / "Match cannot end tied on sets"
* `fixtureNotFound` — 404 "Fixture not found"
* `insufficientPlayers` — 400 "Need at least 2 players"
* `missingScores` — "Either provide set_scores or integer player1_score/player2_score" -/
inductive VErr where
  | invalidGrid : VErr
  | tooManySets : VErr
  | malformedSet : VErr
  | tiedSet : Int → Int → VErr
  | implausibleSetScore : Int → Int → VErr
  | drawNotAllowed : VErr
  | fixtureNotFound : VErr
  | insufficientPlayers : VErr
  | missingScores : VErr
deriving Repr, DecidableEq

/-- A row of the `players` table (`src/init.sql` lines 7–16), restricted to
its cumulative standings columns: `played`, `won` (sets won), `lost`
(sets lost), `points`.  The columns are SQL `INTEGER`s, so they are
embedded as `Int` — nothing in the schema prevents negative values. -/
structure Stats where
  played : Int
  won : Int
  lost : Int
  points : Int
deriving Repr, DecidableEq

/-- A row of the `fixtures` table (`src/init.sql` lines 18–32); nullable
columns are `Option`-valued. -/
structure Fixture where
  division_id : Nat
  player1_id : Nat
  player2_id : Nat
  player1_score : Option Int
  player2_score : Option Int
  set_scores : Option (List (Int × Int))
  player1_sets : Option Int
  player2_sets : Option Int
  winner_id : Option Nat
  played : Bool
deriving Repr, DecidableEq

/-- The JSON body of `PUT /api/fixtures/:id/result`
(`const { player1_score, player2_score, set_scores } = req.body`).
Absent fields are `none`; `set_scores`, when present, is a grid of
integer pairs. -/
structure ResultBody where
  player1_score : Option Int
  player2_score : Option Int
  set_scores : Option (List (Int × Int))
deriving Repr, DecidableEq

/-- The slice of database state a `recordResult` call touches: the fixture
row selected by `:id` (`none` when no row matches) and the standings rows
of its two participants.  The two players are distinct rows (`player1_id ≠
player2_id` for any generated fixture), so an `UPDATE … WHERE id =
player1_id` touches only `p1`, and symmetrically. -/
structure RecordState where
  fixture : Option Fixture
  p1 : Stats
  p2 : Stats
deriving Repr, DecidableEq

/-- Variant A, `server.js` lines 62–65: the "looks like a completed set"
plausibility test on one entry.
`winner = Math.max(a,b)`, `loser = Math.min(a,b)`, `diff = winner - loser`;
`(winner === 6 && diff >= 2) || (winner === 7 && (diff === 1 || diff === 2))`. -/
def looksLikeSet (a b : Int) : Bool :=
  let winner := max a b
  let loser := min a b
  let diff := winner - loser
  (winner == 6 && diff ≥ 2) || (winner == 7 && (diff == 1 || diff == 2))

/-- Output of `computeSetsFromGrid` (`return { p1Sets, p2Sets, cleaned }`,
`server.js` line 80). -/
structure GridResult where
  p1Sets : Int
  p2Sets : Int
  cleaned : List (Int × Int)
deriving Repr, DecidableEq

/-- Variant A, `server.js` lines 52–74: the `for (const s of setScores)`
loop of `computeSetsFromGrid`, carrying the running tallies `p1Sets`,
`p2Sets` and the `cleaned` accumulator (pushed in order; the accumulator
here is kept reversed and flipped at the end).  On the typed domain the
`Array.isArray(s) && s.length === 2` and `Number.isInteger` checks always
pass; the remaining checks fire in source order: negativity, tie,
plausibility. -/
def computeSetsLoop : List (Int × Int) → Int → Int → List (Int × Int) →
    Except VErr (Int × Int × List (Int × Int))
  | [], p1Sets, p2Sets, cleaned => .ok (p1Sets, p2Sets, cleaned.reverse)
  | (a, b) :: rest, p1Sets, p2Sets, cleaned =>
    if a < 0 ∨ b < 0 then .error .malformedSet
    else if a = b then .error (.tiedSet a b)
    else if ¬ looksLikeSet a b then .error (.implausibleSetScore a b)
    else if a > b then computeSetsLoop rest (p1Sets + 1) p2Sets ((a, b) :: cleaned)
    else computeSetsLoop rest p1Sets (p2Sets + 1) ((a, b) :: cleaned)

/-- Variant A, `server.js` lines 40–81: `computeSetsFromGrid(setScores)`.
`none` models a missing / non-array `set_scores`.  Checks in source
order: non-empty array, length ≤ 3, the per-entry loop, and finally the
draw check `p1Sets === p2Sets`. -/
def computeSetsFromGrid (setScores : Option (List (Int × Int))) : Except VErr GridResult :=
  match setScores with
  | none => .error .invalidGrid
  | some g =>
    if g.length = 0 then .error .invalidGrid
    else if g.length > 3 then .error .tooManySets
    else
      match computeSetsLoop g 0 0 [] with
      | .error e => .error e
      | .ok (p1Sets, p2Sets, cleaned) =>
        if p1Sets = p2Sets then .error .drawNotAllowed
        else .ok ⟨p1Sets, p2Sets, cleaned⟩

/-- Both variants, `server.js` lines 294–302 / 635–653: the `UPDATE players
SET played = played + 1, won = won + sWon, lost = lost + sLost,
points = points + sWon` applied to one participant after a result. -/
def applyResult (s : Stats) (sWon sLost : Int) : Stats :=
  { played := s.played + 1
    won := s.won + sWon
    lost := s.lost + sLost
    points := s.points + sWon }

/-- Variant A, `server.js` lines 248–255: the reversal `UPDATE players SET
played = played - 1, won = won - prevWon, lost = lost - prevLost,
points = points - prevWon` — plain subtraction, no clamping. -/
def reverseResultA (s : Stats) (prevWon prevLost : Int) : Stats :=
  { played := s.played - 1
    won := s.won - prevWon
    lost := s.lost - prevLost
    points := s.points - prevWon }

/-- Variant B, `server.js` lines 576–594: the set-based reversal `UPDATE
players SET played = GREATEST(played - 1, 0), won = won - oldWon,
lost = lost - oldLost, points = points - oldWon` — only `played` is
clamped. -/
def reverseSetBasedB (s : Stats) (oldWon oldLost : Int) : Stats :=
  { played := max (s.played - 1) 0
    won := s.won - oldWon
    lost := s.lost - oldLost
    points := s.points - oldWon }

/-- Variant B, `server.js` lines 600–607: the legacy reversal applied to
the stored winner's row — `played = GREATEST(played - 1, 0),
won = GREATEST(won - 1, 0), points = GREATEST(points - 3, 0)`
(`lost` untouched). -/
def reverseLegacyWinnerB (s : Stats) : Stats :=
  { played := max (s.played - 1) 0
    won := max (s.won - 1) 0
    lost := s.lost
    points := max (s.points - 3) 0 }

/-- Variant B, `server.js` lines 609–614: the legacy reversal applied to
the stored loser's row — `played = GREATEST(played - 1, 0),
lost = GREATEST(lost - 1, 0)` (`won`, `points` untouched). -/
def reverseLegacyLoserB (s : Stats) : Stats :=
  { played := max (s.played - 1) 0
    won := s.won
    lost := max (s.lost - 1) 0
    points := s.points }

/-- Variant A, `server.js` lines 258–275: obtain `p1Sets`, `p2Sets`,
`cleaned` from the request body.  `set_scores !== undefined` takes the
grid path through `computeSetsFromGrid`; otherwise the backwards-compatible
fallback coerces `player1_score`/`player2_score` (`Number(...)`, rejecting
non-integers / absent fields), rejects only `a === b`, and uses the two
totals directly as the set counts with `cleaned = null`. -/
def validateBodyA (body : ResultBody) : Except VErr (Int × Int × Option (List (Int × Int))) :=
  match body.set_scores with
  | some g =>
    match computeSetsFromGrid (some g) with
    | .error e => .error e
    | .ok r => .ok (r.p1Sets, r.p2Sets, some r.cleaned)
  | none =>
    match body.player1_score, body.player2_score with
    | some a, some b =>
      if a = b then .error .drawNotAllowed else .ok (a, b, none)
    | _, _ => .error .missingScores

/-- Variant A, `server.js` lines 225–313: `PUT /api/fixtures/:id/result`.
The whole handler runs in one transaction; `.error` models
`ROLLBACK` + the 4xx response, so on error the stored state is the input
state (see `runRecordA`).  Steps in source order: fixture lookup (404),
reversal of the previous result when `fixture.played`
(`Number(fixture.playerN_sets) || 0` reads a NULL column as 0, hence
`Option.getD 0`), validation of the body, then the fixture `UPDATE`
(including the legacy `player1_score`/`player2_score` columns and
`set_scores = COALESCE($3, set_scores)`) and the two standings updates. -/
def recordResultA (st : RecordState) (body : ResultBody) :
    Except VErr (RecordState × Int × Int) :=
  match st.fixture with
  | none => .error .fixtureNotFound
  | some fixture =>
    let prevP1Sets := fixture.player1_sets.getD 0
    let prevP2Sets := fixture.player2_sets.getD 0
    let s1 := if fixture.played then reverseResultA st.p1 prevP1Sets prevP2Sets else st.p1
    let s2 := if fixture.played then reverseResultA st.p2 prevP2Sets prevP1Sets else st.p2
    match validateBodyA body with
    | .error e => .error e
    | .ok (p1Sets, p2Sets, cleaned) =>
      let winnerId := if p1Sets > p2Sets then fixture.player1_id else fixture.player2_id
      let fixture' : Fixture :=
        { fixture with
          player1_score := some p1Sets
          player2_score := some p2Sets
          player1_sets := some p1Sets
          player2_sets := some p2Sets
          set_scores := match cleaned with
            | some c => some c
            | none => fixture.set_scores
          winner_id := some winnerId
          played := true }
      .ok (⟨some fixture', applyResult s1 p1Sets p2Sets, applyResult s2 p2Sets p1Sets⟩,
           p1Sets, p2Sets)

/-- Variant B, `server.js` lines 507–516: normalization of the request
body — an array `set_scores` is used as is; otherwise integer, unequal
`player1_score`/`player2_score` are wrapped as the one-set grid
`[[player1_score, player2_score]]`; anything else leaves `null`. -/
def normalizeB (body : ResultBody) : Option (List (Int × Int)) :=
  match body.set_scores with
  | some g => some g
  | none =>
    match body.player1_score, body.player2_score with
    | some a, some b => if a ≠ b then some [(a, b)] else none
    | _, _ => none

/-- Variant B, `server.js` lines 529–546: the `for (const s of
normalizedSetScores)` counting loop.  Per entry, in source order:
shape/integer checks (always passing on the typed domain) together with
negativity, then the tie check; there is no plausibility rule in this
variant.  `a > b` credits the set to player 1, otherwise to player 2. -/
def countSetsB : List (Int × Int) → Int → Int → Except VErr (Int × Int)
  | [], p1Sets, p2Sets => .ok (p1Sets, p2Sets)
  | (a, b) :: rest, p1Sets, p2Sets =>
    if a < 0 ∨ b < 0 then .error .malformedSet
    else if a = b then .error (.tiedSet a b)
    else if a > b then countSetsB rest (p1Sets + 1) p2Sets
    else countSetsB rest p1Sets (p2Sets + 1)

/-- Variant B, `server.js` lines 518–550: the pre-transaction validation of
the normalized grid — emptiness, length ≤ 3, the counting loop, and the
draw check. -/
def validateGridB (g : List (Int × Int)) : Except VErr (Int × Int) :=
  if g.length = 0 then .error .invalidGrid
  else if g.length > 3 then .error .tooManySets
  else
    match countSetsB g 0 0 with
    | .error e => .error e
    | .ok (p1Sets, p2Sets) =>
      if p1Sets = p2Sets then .error .drawNotAllowed
      else .ok (p1Sets, p2Sets)

/-- Variant B, `server.js` lines 569–617: the reversal step for a played
fixture.  When both stored `player1_sets`/`player2_sets` are integers,
the set-based reversal runs; otherwise, when `winner_id` is set, the
legacy reversal updates the row `WHERE id = winner_id` with the winner
form and the row `WHERE id = (winner_id === player1_id ? player2_id :
player1_id)` with the loser form (a `winner_id` matching neither
participant updates a row outside this fixture's pair, so neither
modeled row gets the winner form); with no `winner_id` nothing is
reversed. -/
def reverseStepB (fixture : Fixture) (s1 s2 : Stats) : Stats × Stats :=
  if fixture.played then
    match fixture.player1_sets, fixture.player2_sets with
    | some oldP1Sets, some oldP2Sets =>
      (reverseSetBasedB s1 oldP1Sets oldP2Sets, reverseSetBasedB s2 oldP2Sets oldP1Sets)
    | _, _ =>
      match fixture.winner_id with
      | some oldWinner =>
        if oldWinner = fixture.player1_id then
          (reverseLegacyWinnerB s1, reverseLegacyLoserB s2)
        else if oldWinner = fixture.player2_id then
          (reverseLegacyLoserB s1, reverseLegacyWinnerB s2)
        else
          (reverseLegacyLoserB s1, s2)
      | none => (s1, s2)
  else (s1, s2)

/-- Variant B, `server.js` lines 500–664: `PUT /api/fixtures/:id/result`.
Normalization and grid validation happen before the transaction (early
`return res.status(400)`), then inside the transaction: fixture lookup
`FOR UPDATE` (404), the reversal step, the fixture `UPDATE` (storing the
normalized grid and set counts; this variant does not touch the legacy
`player1_score`/`player2_score` columns), and the two standings updates.
`.error` models the 4xx response with no committed write
(see `runRecordB`). -/
def recordResultB (st : RecordState) (body : ResultBody) :
    Except VErr (RecordState × Int × Int) :=
  match normalizeB body with
  | none => .error .invalidGrid
  | some g =>
    match validateGridB g with
    | .error e => .error e
    | .ok (p1Sets, p2Sets) =>
      match st.fixture with
      | none => .error .fixtureNotFound
      | some fixture =>
        let s := reverseStepB fixture st.p1 st.p2
        let winnerId := if p1Sets > p2Sets then fixture.player1_id else fixture.player2_id
        let fixture' : Fixture :=
          { fixture with
            set_scores := some g
            player1_sets := some p1Sets
            player2_sets := some p2Sets
            winner_id := some winnerId
            played := true }
        .ok (⟨some fixture', applyResult s.1 p1Sets p2Sets, applyResult s.2 p2Sets p1Sets⟩,
             p1Sets, p2Sets)

/-- Observable stored state after a variant-A `recordResult` call: on
`.ok` the committed state, on `.error` the `ROLLBACK` leaves the input
state. -/
def runRecordA (st : RecordState) (body : ResultBody) : RecordState :=
  match recordResultA st body with
  | .ok (st', _, _) => st'
  | .error _ => st

/-- Observable stored state after a variant-B `recordResult` call: on
`.ok` the committed state, otherwise (early validation return or
`ROLLBACK`) the input state. -/
def runRecordB (st : RecordState) (body : ResultBody) : RecordState :=
  match recordResultB st body with
  | .ok (st', _, _) => st'
  | .error _ => st

/-- A row of the `players` table as seen by fixture generation: its id and
its standings columns. -/
structure Player where
  id : Nat
  stats : Stats
deriving Repr, DecidableEq

/-- The slice of database state `POST /api/divisions/:id/generate-fixtures`
touches: the division's roster (`SELECT * FROM players WHERE division_id
= $1`, in table order) and the division's fixtures. -/
structure DivisionState where
  players : List Player
  fixtures : List Fixture
deriving Repr, DecidableEq

/-- A fixture row freshly inserted by `INSERT INTO fixtures (division_id,
player1_id, player2_id) VALUES (...)`; every other column takes its
`src/init.sql` default (`player1_sets`/`player2_sets` default 0,
`played` defaults FALSE, the rest NULL). -/
def newFixture (divId p1Id p2Id : Nat) : Fixture :=
  { division_id := divId
    player1_id := p1Id
    player2_id := p2Id
    player1_score := none
    player2_score := none
    set_scores := none
    player1_sets := some 0
    player2_sets := some 0
    winner_id := none
    played := false }

/-- Both variants, `server.js` lines 193–200 / 468–475: the nested
insertion loop `for (i …) for (j = i + 1 …) INSERT (players[i].id,
players[j].id)` — each roster entry paired with every later one, in
order. -/
def pairUp : List Nat → List (Nat × Nat)
  | [] => []
  | x :: rest => (rest.map fun y => (x, y)) ++ pairUp rest

/-- `UPDATE players SET played = 0, won = 0, lost = 0, points = 0`
(variant A, `server.js` lines 188–191) applied to one roster row. -/
def resetStats (p : Player) : Player :=
  { p with stats := ⟨0, 0, 0, 0⟩ }

/-- Variant A, `server.js` lines 166–223:
`POST /api/divisions/:id/generate-fixtures`.  In one transaction: roster
lookup; `ROLLBACK` + 400 when fewer than 2 players (no write has
happened at that point); otherwise `DELETE FROM fixtures WHERE
division_id = $1`, the standings reset for the division, and the
insertion loop.  `.error` models the rolled-back / no-write outcome. -/
def generateFixturesA (divId : Nat) (st : DivisionState) : Except VErr DivisionState :=
  if st.players.length < 2 then .error .insufficientPlayers
  else .ok
    { players := st.players.map resetStats
      fixtures := (pairUp (st.players.map Player.id)).map fun pr => newFixture divId pr.1 pr.2 }

/-- Variant B, `server.js` lines 448–498: the same route without the
standings reset — existing fixtures are deleted and the new pairing set
inserted, but player stats are left as they are. -/
def generateFixturesB (divId : Nat) (st : DivisionState) : Except VErr DivisionState :=
  if st.players.length < 2 then .error .insufficientPlayers
  else .ok
    { players := st.players
      fixtures := (pairUp (st.players.map Player.id)).map fun pr => newFixture divId pr.1 pr.2 }

/-- Observable stored state after a variant-A generate-fixtures call
(`.error` = `ROLLBACK`, nothing written). -/
def runGenerateA (divId : Nat) (st : DivisionState) : DivisionState :=
  match generateFixturesA divId st with
  | .ok st' => st'
  | .error _ => st

/-- Observable stored state after a variant-B generate-fixtures call. -/
def runGenerateB (divId : Nat) (st : DivisionState) : DivisionState :=
  match generateFixturesB divId st with
  | .ok st' => st'
  | .error _ => st

/-- The "looks like a completed set" rule as the spec states it (§4.1),
written from the spec's words for comparison with the source's
`looksLikeSet`: with winner = max(a,b), loser = min(a,b),
diff = winner - loser, the entry is valid iff
(winner = 6 and diff ≥ 2) or (winner = 7 and diff ∈ {1, 2}). -/
def specCompletedSetRule (a b : Int) : Prop :=
  (max a b = 6 ∧ 2 ≤ max a b - min a b) ∨
  (max a b = 7 ∧ (max a b - min a b = 1 ∨ max a b - min a b = 2))

instance (a b : Int) : Decidable (specCompletedSetRule a b) := by
  unfold specCompletedSetRule; infer_instance

theorem computeSetsLoop_ok_facts (l : List (Int × Int)) :
    ∀ (p1 p2 : Int) (acc : List (Int × Int)) (q1 q2 : Int) (c : List (Int × Int)),
      computeSetsLoop l p1 p2 acc = .ok (q1, q2, c) →
      p1 ≤ q1 ∧ p2 ≤ q2 ∧ q1 + q2 = p1 + p2 + l.length ∧
      ∀ s ∈ l, 0 ≤ s.1 ∧ 0 ≤ s.2 ∧ s.1 ≠ s.2 ∧ looksLikeSet s.1 s.2 = true := by
  induction l with
  | nil =>
    intro p1 p2 acc q1 q2 c h
    simp [computeSetsLoop] at h
    obtain ⟨h1, h2, -⟩ := h
    simp [h1, h2]
  | cons s rest ih =>
    obtain ⟨a, b⟩ := s
    intro p1 p2 acc q1 q2 c h
    rw [computeSetsLoop] at h
    split at h
    · exact absurd h (by simp)
    · rename_i hneg
      split at h
      · exact absurd h (by simp)
      · rename_i htie
        split at h
        · exact absurd h (by simp)
        · rename_i hlook
          push_neg at hneg
          rw [not_not] at hlook
          split at h
          · obtain ⟨ih1, ih2, ih3, ih4⟩ := ih _ _ _ _ _ _ h
            refine ⟨by omega, le_of_eq rfl |>.trans ih2, by simp; omega, ?_⟩
            intro t ht
            rcases List.mem_cons.mp ht with ht | ht
            · subst ht; exact ⟨hneg.1, hneg.2, htie, hlook⟩
            · exact ih4 t ht
          · obtain ⟨ih1, ih2, ih3, ih4⟩ := ih _ _ _ _ _ _ h
            refine ⟨ih1, by omega, by simp; omega, ?_⟩
            intro t ht
            rcases List.mem_cons.mp ht with ht | ht
            · subst ht; exact ⟨hneg.1, hneg.2, htie, hlook⟩
            · exact ih4 t ht

theorem computeSetsFromGrid_ok_facts (g : List (Int × Int)) (r : GridResult)
    (h : computeSetsFromGrid (some g) = .ok r) :
    0 ≤ r.p1Sets ∧ 0 ≤ r.p2Sets ∧ r.p1Sets + r.p2Sets = g.length ∧
    r.p1Sets ≠ r.p2Sets ∧ 1 ≤ g.length ∧ g.length ≤ 3 ∧
    ∀ s ∈ g, 0 ≤ s.1 ∧ 0 ≤ s.2 ∧ s.1 ≠ s.2 ∧ looksLikeSet s.1 s.2 = true := by
  rw [computeSetsFromGrid] at h
  split at h
  · exact absurd h (by simp)
  · rename_i hlen0
    split at h
    · exact absurd h (by simp)
    · rename_i hlen3
      split at h
      · exact absurd h (by simp)
      · rename_i p1 p2 c hloop
        split at h
        · exact absurd h (by simp)
        · rename_i hdraw
          obtain ⟨h1, h2, h3, h4⟩ := computeSetsLoop_ok_facts g 0 0 [] p1 p2 c hloop
          obtain rfl : GridResult.mk p1 p2 c = r := by simpa using h
          refine ⟨h1, h2, by simpa using h3, hdraw, by omega, by omega, h4⟩

/-- C2: the per-entry plausibility rule of the set-grid validator agrees
with the spec's winner/loser/diff formulation; every accepted grid's
entries satisfy it; a non-negative, non-tied entry violating it is
rejected with `ImplausibleSetScore` naming the pair; in particular
`[[8,6]]` is rejected that way. -/
theorem c2_implausible_set_rule :
    (∀ a b : Int, looksLikeSet a b = true ↔ specCompletedSetRule a b) ∧
    (∀ (g : List (Int × Int)) (r : GridResult), computeSetsFromGrid (some g) = .ok r →
      ∀ s ∈ g, specCompletedSetRule s.1 s.2) ∧
    (∀ a b : Int, 0 ≤ a → 0 ≤ b → a ≠ b → ¬ specCompletedSetRule a b →
      computeSetsFromGrid (some [(a, b)]) = .error (.implausibleSetScore a b)) ∧
    computeSetsFromGrid (some [((8 : Int), (6 : Int))]) = .error (.implausibleSetScore 8 6) := by
  have hiff : ∀ a b : Int, looksLikeSet a b = true ↔ specCompletedSetRule a b := by
    intro a b
    simp only [looksLikeSet, specCompletedSetRule, Bool.or_eq_true, Bool.and_eq_true,
      beq_iff_eq, decide_eq_true_eq]
  refine ⟨hiff, ?_, ?_, by rfl⟩
  · intro g r h s hs
    exact (hiff s.1 s.2).mp ((computeSetsFromGrid_ok_facts g r h).2.2.2.2.2.2 s hs).2.2.2
  · intro a b ha hb hab hrule
    have hlook : ¬ looksLikeSet a b = true := fun hl => hrule ((hiff a b).mp hl)
    rw [computeSetsFromGrid]
    rw [computeSetsLoop]
    simp only [List.length_cons, List.length_nil]
    rw [if_neg (by omega), if_neg (by omega)]
    rw [if_neg (by omega), if_neg hab, if_pos hlook]

/-- C2 witness: the general rejection clause applied at the concrete
entry (8, 6). -/
theorem c2_implausible_set_rule_witness :
    computeSetsFromGrid (some [((8 : Int), (6 : Int))]) = .error (.implausibleSetScore 8 6) :=
  c2_implausible_set_rule.2.2.1 8 6 (by decide) (by decide) (by decide) (by decide)

/-- C9: in the validator loop the tie check fires before the
plausibility check — any non-negative tied entry at the head of the
remaining grid fails with `TiedSet`, whatever the tallies so far; in
particular `[[6,6]]` fails with `TiedSet`, even though the plausibility
rule would also have rejected it (`looksLikeSet 6 6 = false`). -/
theorem c9_tie_checked_before_plausibility :
    (∀ (a : Int), 0 ≤ a →
      ∀ (rest : List (Int × Int)) (p1 p2 : Int) (acc : List (Int × Int)),
        computeSetsLoop ((a, a) :: rest) p1 p2 acc = .error (.tiedSet a a)) ∧
    computeSetsFromGrid (some [((6 : Int), (6 : Int))]) = .error (.tiedSet 6 6) ∧
    looksLikeSet 6 6 = false := by
  refine ⟨?_, by rfl, by rfl⟩
  intro a ha rest p1 p2 acc
  rw [computeSetsLoop]
  rw [if_neg (by omega), if_pos rfl]

/-- C9 witness: the general tie-first clause applied at entry (6, 6)
with empty tail and zero tallies. -/
theorem c9_tie_checked_before_plausibility_witness :
    computeSetsLoop [((6 : Int), (6 : Int))] 0 0 [] = .error (.tiedSet 6 6) :=
  c9_tie_checked_before_plausibility.1 6 (by decide) [] 0 0 []

/-- C6: every grid the validator accepts yields set tallies summing to
the number of sets in the grid, and the two tallies are never equal. -/
theorem c6_tallies_sum_to_sets_and_differ :
    ∀ (g : List (Int × Int)) (r : GridResult), computeSetsFromGrid (some g) = .ok r →
      r.p1Sets + r.p2Sets = g.length ∧ r.p1Sets ≠ r.p2Sets := by
  intro g r h
  have hf := computeSetsFromGrid_ok_facts g r h
  exact ⟨hf.2.2.1, hf.2.2.2.1⟩

/-- C6 witness: applied to the accepted grid `[[6,0],[6,4]]`. -/
theorem c6_tallies_sum_to_sets_and_differ_witness :
    ((⟨2, 0, [(6, 0), (6, 4)]⟩ : GridResult).p1Sets +
        (⟨2, 0, [(6, 0), (6, 4)]⟩ : GridResult).p2Sets =
      (([((6 : Int), (0 : Int)), (6, 4)] : List (Int × Int)).length : Int)) ∧
    (⟨2, 0, [(6, 0), (6, 4)]⟩ : GridResult).p1Sets ≠
      (⟨2, 0, [(6, 0), (6, 4)]⟩ : GridResult).p2Sets :=
  c6_tallies_sum_to_sets_and_differ [((6 : Int), (0 : Int)), (6, 4)]
    ⟨2, 0, [(6, 0), (6, 4)]⟩ rfl

theorem recordResultA_grid_ok (f : Fixture) (s1 s2 : Stats) (p1s p2s : Option Int)
    (g : List (Int × Int)) (r : GridResult)
    (hv : computeSetsFromGrid (some g) = .ok r) :
    recordResultA ⟨some f, s1, s2⟩ ⟨p1s, p2s, some g⟩ =
      .ok (⟨some { f with
              player1_score := some r.p1Sets
              player2_score := some r.p2Sets
              player1_sets := some r.p1Sets
              player2_sets := some r.p2Sets
              set_scores := some r.cleaned
              winner_id := some (if r.p1Sets > r.p2Sets then f.player1_id else f.player2_id)
              played := true },
            applyResult
              (if f.played then
                reverseResultA s1 (f.player1_sets.getD 0) (f.player2_sets.getD 0) else s1)
              r.p1Sets r.p2Sets,
            applyResult
              (if f.played then
                reverseResultA s2 (f.player2_sets.getD 0) (f.player1_sets.getD 0) else s2)
              r.p2Sets r.p1Sets⟩,
          r.p1Sets, r.p2Sets) := by
  simp [recordResultA, validateBodyA, hv]

theorem recordResultB_grid_ok (f : Fixture) (s1 s2 : Stats) (p1s p2s : Option Int)
    (g : List (Int × Int)) (u v : Int)
    (hv : validateGridB g = .ok (u, v)) :
    recordResultB ⟨some f, s1, s2⟩ ⟨p1s, p2s, some g⟩ =
      .ok (⟨some { f with
              set_scores := some g
              player1_sets := some u
              player2_sets := some v
              winner_id := some (if u > v then f.player1_id else f.player2_id)
              played := true },
            applyResult (reverseStepB f s1 s2).1 u v,
            applyResult (reverseStepB f s1 s2).2 v u⟩,
          u, v) := by
  simp [recordResultB, normalizeB, hv]

/-- C7: a grid-validation failure in `recordResult` surfaces the
validator's error unchanged and commits nothing — the observable stored
state (fixture row and both standings rows) after the call equals the
state before.  First conjunct: variant A (the error is thrown inside the
transaction and everything, including the already-executed reversal
`UPDATE`s, is rolled back); second: variant B (validation runs before
the transaction opens). -/
theorem c7_validation_failure_is_a_no_op :
    (∀ (st : RecordState) (f : Fixture) (body : ResultBody) (g : List (Int × Int)) (e : VErr),
      st.fixture = some f → body.set_scores = some g →
      computeSetsFromGrid (some g) = .error e →
      recordResultA st body = .error e ∧ runRecordA st body = st) ∧
    (∀ (st : RecordState) (p1s p2s : Option Int) (g : List (Int × Int)) (e : VErr),
      validateGridB g = .error e →
      recordResultB st ⟨p1s, p2s, some g⟩ = .error e ∧
      runRecordB st ⟨p1s, p2s, some g⟩ = st) := by
  constructor
  · intro st f body g e hst hbody hval
    have h : recordResultA st body = .error e := by
      simp [recordResultA, hst, validateBodyA, hbody, hval]
    exact ⟨h, by simp [runRecordA, h]⟩
  · intro st p1s p2s g e hval
    have h : recordResultB st ⟨p1s, p2s, some g⟩ = .error e := by
      simp [recordResultB, normalizeB, hval]
    exact ⟨h, by simp [runRecordB, h]⟩

/-- C7 witness: recording the implausible grid `[[8,6]]` on an unplayed
fixture between players 10 and 20 (both on zeroed standings) fails with
`ImplausibleSetScore` and leaves the state untouched, in both variants. -/
theorem c7_validation_failure_is_a_no_op_witness :
    (recordResultA ⟨some (newFixture 1 10 20), ⟨0, 0, 0, 0⟩, ⟨0, 0, 0, 0⟩⟩
        ⟨none, none, some [(8, 6)]⟩ = .error (.implausibleSetScore 8 6) ∧
      runRecordA ⟨some (newFixture 1 10 20), ⟨0, 0, 0, 0⟩, ⟨0, 0, 0, 0⟩⟩
        ⟨none, none, some [(8, 6)]⟩ =
        ⟨some (newFixture 1 10 20), ⟨0, 0, 0, 0⟩, ⟨0, 0, 0, 0⟩⟩) ∧
    recordResultB ⟨some (newFixture 1 10 20), ⟨0, 0, 0, 0⟩, ⟨0, 0, 0, 0⟩⟩
        ⟨none, none, some [(6, 6)]⟩ = .error (.tiedSet 6 6) ∧
      runRecordB ⟨some (newFixture 1 10 20), ⟨0, 0, 0, 0⟩, ⟨0, 0, 0, 0⟩⟩
        ⟨none, none, some [(6, 6)]⟩ =
        ⟨some (newFixture 1 10 20), ⟨0, 0, 0, 0⟩, ⟨0, 0, 0, 0⟩⟩ :=
  ⟨c7_validation_failure_is_a_no_op.1 _ (newFixture 1 10 20) _ [(8, 6)] _ rfl rfl rfl,
   c7_validation_failure_is_a_no_op.2 _ none none [(6, 6)] _ rfl⟩

/-- C8: generating fixtures for a division with fewer than two players
fails with `InsufficientPlayers` and is a transactional no-op — the
division's fixtures and every player's standings are unchanged — in
both variants. -/
theorem c8_insufficient_players_no_op :
    ∀ (divId : Nat) (st : DivisionState), st.players.length < 2 →
      generateFixturesA divId st = .error .insufficientPlayers ∧
      runGenerateA divId st = st ∧
      generateFixturesB divId st = .error .insufficientPlayers ∧
      runGenerateB divId st = st := by
  intro divId st h
  have ha : generateFixturesA divId st = .error .insufficientPlayers := by
    simp [generateFixturesA, h]
  have hb : generateFixturesB divId st = .error .insufficientPlayers := by
    simp [generateFixturesB, h]
  exact ⟨ha, by simp [runGenerateA, ha], hb, by simp [runGenerateB, hb]⟩

/-- C8 witness: a division holding one player (with non-zero standings)
and a leftover fixture is left exactly as it was. -/
theorem c8_insufficient_players_no_op_witness :
    generateFixturesA 1 ⟨[⟨7, ⟨3, 4, 5, 6⟩⟩], [newFixture 1 7 9]⟩ =
        .error .insufficientPlayers ∧
      runGenerateA 1 ⟨[⟨7, ⟨3, 4, 5, 6⟩⟩], [newFixture 1 7 9]⟩ =
        ⟨[⟨7, ⟨3, 4, 5, 6⟩⟩], [newFixture 1 7 9]⟩ ∧
      generateFixturesB 1 ⟨[⟨7, ⟨3, 4, 5, 6⟩⟩], [newFixture 1 7 9]⟩ =
        .error .insufficientPlayers ∧
      runGenerateB 1 ⟨[⟨7, ⟨3, 4, 5, 6⟩⟩], [newFixture 1 7 9]⟩ =
        ⟨[⟨7, ⟨3, 4, 5, 6⟩⟩], [newFixture 1 7 9]⟩ :=
  c8_insufficient_players_no_op 1 ⟨[⟨7, ⟨3, 4, 5, 6⟩⟩], [newFixture 1 7 9]⟩ (by decide)

/-- C10: the backwards-compatibility path of `recordResult`.  In variant
A, when `set_scores` is absent, unequal integer
`player1_score`/`player2_score` are used directly as the set counts with
no further validation: totals of 100–0, and even the negative −1–5, are
applied to standings — yet every grid the validator accepts yields set
counts in [0, 3], so such totals are unreachable through a valid grid.
In variant B the same old payload is instead wrapped as the one-set grid
`[[player1_score, player2_score]]`. -/
theorem c10_legacy_score_fallback :
    (∃ out, recordResultA ⟨some (newFixture 1 10 20), ⟨0, 0, 0, 0⟩, ⟨0, 0, 0, 0⟩⟩
        ⟨some 100, some 0, none⟩ = .ok out ∧
      out.2.1 = 100 ∧ out.1.p1.won = 100 ∧ out.1.p1.points = 100 ∧ out.1.p2.lost = 100) ∧
    (∃ out, recordResultA ⟨some (newFixture 1 10 20), ⟨0, 0, 0, 0⟩, ⟨0, 0, 0, 0⟩⟩
        ⟨some (-1), some 5, none⟩ = .ok out ∧
      out.2.1 = -1 ∧ out.1.p1.won = -1) ∧
    (∀ (g : List (Int × Int)) (r : GridResult), computeSetsFromGrid (some g) = .ok r →
      0 ≤ r.p1Sets ∧ r.p1Sets ≤ 3 ∧ 0 ≤ r.p2Sets ∧ r.p2Sets ≤ 3) ∧
    (∀ a b : Int, a ≠ b → normalizeB ⟨some a, some b, none⟩ = some [(a, b)]) := by
  refine ⟨⟨_, rfl, rfl, rfl, rfl, rfl⟩, ⟨_, rfl, rfl, rfl⟩, ?_, ?_⟩
  · intro g r h
    have hf := computeSetsFromGrid_ok_facts g r h
    have h1 := hf.1
    have h2 := hf.2.1
    have hsum := hf.2.2.1
    have hlen : g.length ≤ 3 := hf.2.2.2.2.2.1
    have hlen' : (g.length : Int) ≤ 3 := by exact_mod_cast hlen
    omega
  · intro a b hab
    simp [normalizeB, hab]

/-- C10 witness: the bound and wrapping clauses applied at the grid
`[[6,0]]` and the payload (1, 0). -/
theorem c10_legacy_score_fallback_witness :
    (0 ≤ (⟨1, 0, [(6, 0)]⟩ : GridResult).p1Sets ∧
        (⟨1, 0, [(6, 0)]⟩ : GridResult).p1Sets ≤ 3 ∧
        0 ≤ (⟨1, 0, [(6, 0)]⟩ : GridResult).p2Sets ∧
        (⟨1, 0, [(6, 0)]⟩ : GridResult).p2Sets ≤ 3) ∧
      normalizeB ⟨some 1, some 0, none⟩ = some [(1, 0)] :=
  ⟨c10_legacy_score_fallback.2.2.1 [((6 : Int), (0 : Int))] ⟨1, 0, [(6, 0)]⟩ rfl,
   c10_legacy_score_fallback.2.2.2 1 0 (by decide)⟩

/-- C1: recording a result twice on the same fixture — first with valid
grid G1, then with valid grid G2 — leaves both participants' cumulative
stats exactly as a single recording of G2 on the previously unplayed
fixture would.  First conjunct: variant A (the reversal subtracts the
stored counts of G1 exactly).  Second conjunct: variant B, where the
`GREATEST(played-1,0)` clamp is transparent as long as the baseline
`played` columns are non-negative. -/
theorem c1_reverse_then_apply_idempotent :
    (∀ (f : Fixture) (s1 s2 : Stats) (g1 g2 : List (Int × Int)) (r1 r2 : GridResult),
      f.played = false →
      computeSetsFromGrid (some g1) = .ok r1 →
      computeSetsFromGrid (some g2) = .ok r2 →
      (runRecordA (runRecordA ⟨some f, s1, s2⟩ ⟨none, none, some g1⟩)
          ⟨none, none, some g2⟩).p1 =
        (runRecordA ⟨some f, s1, s2⟩ ⟨none, none, some g2⟩).p1 ∧
      (runRecordA (runRecordA ⟨some f, s1, s2⟩ ⟨none, none, some g1⟩)
          ⟨none, none, some g2⟩).p2 =
        (runRecordA ⟨some f, s1, s2⟩ ⟨none, none, some g2⟩).p2) ∧
    (∀ (f : Fixture) (s1 s2 : Stats) (g1 g2 : List (Int × Int)) (u1 v1 u2 v2 : Int),
      f.played = false → 0 ≤ s1.played → 0 ≤ s2.played →
      validateGridB g1 = .ok (u1, v1) →
      validateGridB g2 = .ok (u2, v2) →
      (runRecordB (runRecordB ⟨some f, s1, s2⟩ ⟨none, none, some g1⟩)
          ⟨none, none, some g2⟩).p1 =
        (runRecordB ⟨some f, s1, s2⟩ ⟨none, none, some g2⟩).p1 ∧
      (runRecordB (runRecordB ⟨some f, s1, s2⟩ ⟨none, none, some g1⟩)
          ⟨none, none, some g2⟩).p2 =
        (runRecordB ⟨some f, s1, s2⟩ ⟨none, none, some g2⟩).p2) := by
  constructor
  · intro f s1 s2 g1 g2 r1 r2 hf hv1 hv2
    simp only [runRecordA, recordResultA_grid_ok f s1 s2 none none g1 r1 hv1,
      recordResultA_grid_ok f s1 s2 none none g2 r2 hv2]
    rw [recordResultA_grid_ok _ _ _ none none g2 r2 hv2]
    simp [hf, applyResult, reverseResultA, Stats.mk.injEq]
  · intro f s1 s2 g1 g2 u1 v1 u2 v2 hf hs1 hs2 hv1 hv2
    simp only [runRecordB, recordResultB_grid_ok f s1 s2 none none g1 u1 v1 hv1,
      recordResultB_grid_ok f s1 s2 none none g2 u2 v2 hv2]
    rw [recordResultB_grid_ok _ _ _ none none g2 u2 v2 hv2]
    simp [hf, reverseStepB, applyResult, reverseSetBasedB, Stats.mk.injEq]
    exact ⟨hs1, hs2⟩

/-- C1 witness: the spec's §8 example — grid [[6,2],[3,6],[7,5]]
corrected to [[2,6],[2,6]] on a fixture between players 10 and 20 —
ends at the same standings as recording [[2,6],[2,6]] once, in both
variants. -/
theorem c1_reverse_then_apply_idempotent_witness :
    ((runRecordA (runRecordA ⟨some (newFixture 1 10 20), ⟨2, 3, 1, 3⟩, ⟨2, 1, 3, 1⟩⟩
          ⟨none, none, some [(6, 2), (3, 6), (7, 5)]⟩)
        ⟨none, none, some [(2, 6), (2, 6)]⟩).p1 =
      (runRecordA ⟨some (newFixture 1 10 20), ⟨2, 3, 1, 3⟩, ⟨2, 1, 3, 1⟩⟩
          ⟨none, none, some [(2, 6), (2, 6)]⟩).p1 ∧
     (runRecordA (runRecordA ⟨some (newFixture 1 10 20), ⟨2, 3, 1, 3⟩, ⟨2, 1, 3, 1⟩⟩
          ⟨none, none, some [(6, 2), (3, 6), (7, 5)]⟩)
        ⟨none, none, some [(2, 6), (2, 6)]⟩).p2 =
      (runRecordA ⟨some (newFixture 1 10 20), ⟨2, 3, 1, 3⟩, ⟨2, 1, 3, 1⟩⟩
          ⟨none, none, some [(2, 6), (2, 6)]⟩).p2) ∧
    ((runRecordB (runRecordB ⟨some (newFixture 1 10 20), ⟨2, 3, 1, 3⟩, ⟨2, 1, 3, 1⟩⟩
          ⟨none, none, some [(6, 2), (3, 6), (7, 5)]⟩)
        ⟨none, none, some [(2, 6), (2, 6)]⟩).p1 =
      (runRecordB ⟨some (newFixture 1 10 20), ⟨2, 3, 1, 3⟩, ⟨2, 1, 3, 1⟩⟩
          ⟨none, none, some [(2, 6), (2, 6)]⟩).p1 ∧
     (runRecordB (runRecordB ⟨some (newFixture 1 10 20), ⟨2, 3, 1, 3⟩, ⟨2, 1, 3, 1⟩⟩
          ⟨none, none, some [(6, 2), (3, 6), (7, 5)]⟩)
        ⟨none, none, some [(2, 6), (2, 6)]⟩).p2 =
      (runRecordB ⟨some (newFixture 1 10 20), ⟨2, 3, 1, 3⟩, ⟨2, 1, 3, 1⟩⟩
          ⟨none, none, some [(2, 6), (2, 6)]⟩).p2) :=
  ⟨c1_reverse_then_apply_idempotent.1 (newFixture 1 10 20) ⟨2, 3, 1, 3⟩ ⟨2, 1, 3, 1⟩
      [(6, 2), (3, 6), (7, 5)] [(2, 6), (2, 6)]
      ⟨2, 1, [(6, 2), (3, 6), (7, 5)]⟩ ⟨0, 2, [(2, 6), (2, 6)]⟩ rfl rfl rfl,
   c1_reverse_then_apply_idempotent.2 (newFixture 1 10 20) ⟨2, 3, 1, 3⟩ ⟨2, 1, 3, 1⟩
      [(6, 2), (3, 6), (7, 5)] [(2, 6), (2, 6)] 2 1 0 2 rfl (by decide) (by decide) rfl rfl⟩

/-- C5: reversing a played fixture whose stored record predates
set-based scoring (at least one of `player1_sets`/`player2_sets` is
NULL, only `winner_id` is stored) uses the legacy semantics — winner:
played−1, won−1, points−3; loser: played−1, lost−1 — each decrement
clamped at zero, not a reversal with recomputed or zero set counts. -/
theorem c5_legacy_record_reversal :
    ∀ (f : Fixture) (s1 s2 : Stats) (g : List (Int × Int)) (u v : Int),
      f.played = true →
      (f.player1_sets = none ∨ f.player2_sets = none) →
      f.winner_id = some f.player1_id →
      validateGridB g = .ok (u, v) →
      reverseStepB f s1 s2 = (reverseLegacyWinnerB s1, reverseLegacyLoserB s2) ∧
      reverseLegacyWinnerB s1 =
        ⟨max (s1.played - 1) 0, max (s1.won - 1) 0, s1.lost, max (s1.points - 3) 0⟩ ∧
      reverseLegacyLoserB s2 =
        ⟨max (s2.played - 1) 0, s2.won, max (s2.lost - 1) 0, s2.points⟩ ∧
      ∃ f', recordResultB ⟨some f, s1, s2⟩ ⟨none, none, some g⟩ =
        .ok (⟨some f', applyResult (reverseLegacyWinnerB s1) u v,
                       applyResult (reverseLegacyLoserB s2) v u⟩, u, v) := by
  intro f s1 s2 g u v hpl hleg hw hv
  have hrev : reverseStepB f s1 s2 = (reverseLegacyWinnerB s1, reverseLegacyLoserB s2) := by
    rcases hleg with h | h
    · cases hp2 : f.player2_sets <;> simp [reverseStepB, hpl, h, hp2, hw]
    · cases hp1 : f.player1_sets
      · simp [reverseStepB, hpl, h, hp1, hw]
      · simp [reverseStepB, hpl, h, hp1, hw]
  refine ⟨hrev, rfl, rfl, ?_⟩
  have h := recordResultB_grid_ok f s1 s2 none none g u v hv
  rw [hrev] at h
  exact ⟨_, h⟩

/-- C5 witness: a legacy row (winner player 10, no stored set counts)
corrected with the grid [[0,6]]. -/
theorem c5_legacy_record_reversal_witness :
    reverseStepB ⟨1, 10, 20, some 2, some 0, none, none, none, some 10, true⟩
        ⟨5, 3, 2, 9⟩ ⟨4, 1, 2, 3⟩ =
      (reverseLegacyWinnerB ⟨5, 3, 2, 9⟩, reverseLegacyLoserB ⟨4, 1, 2, 3⟩) ∧
    reverseLegacyWinnerB ⟨5, 3, 2, 9⟩ =
      ⟨max ((5 : Int) - 1) 0, max ((3 : Int) - 1) 0, (2 : Int), max ((9 : Int) - 3) 0⟩ ∧
    reverseLegacyLoserB ⟨4, 1, 2, 3⟩ =
      ⟨max ((4 : Int) - 1) 0, (1 : Int), max ((2 : Int) - 1) 0, (3 : Int)⟩ ∧
    ∃ f', recordResultB ⟨some ⟨1, 10, 20, some 2, some 0, none, none, none, some 10, true⟩,
        ⟨5, 3, 2, 9⟩, ⟨4, 1, 2, 3⟩⟩ ⟨none, none, some [(0, 6)]⟩ =
      .ok (⟨some f', applyResult (reverseLegacyWinnerB ⟨5, 3, 2, 9⟩) 0 1,
                     applyResult (reverseLegacyLoserB ⟨4, 1, 2, 3⟩) 1 0⟩, 0, 1) :=
  c5_legacy_record_reversal ⟨1, 10, 20, some 2, some 0, none, none, none, some 10, true⟩
    ⟨5, 3, 2, 9⟩ ⟨4, 1, 2, 3⟩ [(0, 6)] 0 1 rfl (.inl rfl) rfl rfl

/-- C4 counterexample: correcting a played fixture whose stored counts
are `player1_sets = 2`, `player2_sets = 1` while player 1's standings
row holds {played 1, won 0, lost 0, points 0} (malformed legacy data:
the row does not reflect the stored result) drives player 1's `won` to
−2 in both variants — the set-based reversal subtracts `won`, `lost`
and `points` without any clamp, so reversal does not clamp each of the
four fields at zero and a player's stats can go negative. -/
theorem c4_counterexample :
    (runRecordB ⟨some ⟨1, 10, 20, none, none, none, some 2, some 1, some 10, true⟩,
        ⟨1, 0, 0, 0⟩, ⟨1, 1, 2, 1⟩⟩ ⟨none, none, some [(0, 6)]⟩).p1.won = -2 ∧
    (runRecordB ⟨some ⟨1, 10, 20, none, none, none, some 2, some 1, some 10, true⟩,
        ⟨1, 0, 0, 0⟩, ⟨1, 1, 2, 1⟩⟩ ⟨none, none, some [(0, 6)]⟩).p1.won < 0 ∧
    (runRecordA ⟨some ⟨1, 10, 20, none, none, none, some 2, some 1, some 10, true⟩,
        ⟨1, 0, 0, 0⟩, ⟨1, 1, 2, 1⟩⟩ ⟨none, none, some [(0, 6)]⟩).p1.won = -2 :=
  ⟨rfl, by decide, rfl⟩

/-- C4 as amended: in variant B's set-based reversal only `played` is
clamped at zero (`won`, `lost`, `points` are plain subtractions and may
go negative on malformed data); the legacy reversal clamps every field
it decrements, so it keeps non-negative rows non-negative; and variant
A's reversal clamps nothing at all. -/
theorem c4_amended_partial_clamping :
    (∀ (s : Stats) (o1 o2 : Int),
      reverseSetBasedB s o1 o2 =
        ⟨max (s.played - 1) 0, s.won - o1, s.lost - o2, s.points - o1⟩ ∧
      0 ≤ (reverseSetBasedB s o1 o2).played) ∧
    (∀ s : Stats, 0 ≤ s.lost →
      0 ≤ (reverseLegacyWinnerB s).played ∧ 0 ≤ (reverseLegacyWinnerB s).won ∧
      0 ≤ (reverseLegacyWinnerB s).lost ∧ 0 ≤ (reverseLegacyWinnerB s).points) ∧
    (∀ s : Stats, 0 ≤ s.won → 0 ≤ s.points →
      0 ≤ (reverseLegacyLoserB s).played ∧ 0 ≤ (reverseLegacyLoserB s).won ∧
      0 ≤ (reverseLegacyLoserB s).lost ∧ 0 ≤ (reverseLegacyLoserB s).points) ∧
    (∀ (s : Stats) (p q : Int),
      reverseResultA s p q = ⟨s.played - 1, s.won - p, s.lost - q, s.points - p⟩) := by
  refine ⟨fun s o1 o2 => ⟨rfl, le_max_right _ _⟩, fun s h => ?_, fun s h1 h2 => ?_,
    fun s p q => rfl⟩
  · exact ⟨le_max_right _ _, le_max_right _ _, h, le_max_right _ _⟩
  · exact ⟨le_max_right _ _, h1, le_max_right _ _, h2⟩

/-- C4 amended witness: the clamping clauses applied to the concrete row
{played 1, won 1, lost 1, points 3}. -/
theorem c4_amended_partial_clamping_witness :
    (0 ≤ (reverseLegacyWinnerB ⟨1, 1, 1, 3⟩).played ∧
      0 ≤ (reverseLegacyWinnerB ⟨1, 1, 1, 3⟩).won ∧
      0 ≤ (reverseLegacyWinnerB ⟨1, 1, 1, 3⟩).lost ∧
      0 ≤ (reverseLegacyWinnerB ⟨1, 1, 1, 3⟩).points) ∧
    (0 ≤ (reverseLegacyLoserB ⟨1, 1, 1, 3⟩).played ∧
      0 ≤ (reverseLegacyLoserB ⟨1, 1, 1, 3⟩).won ∧
      0 ≤ (reverseLegacyLoserB ⟨1, 1, 1, 3⟩).lost ∧
      0 ≤ (reverseLegacyLoserB ⟨1, 1, 1, 3⟩).points) :=
  ⟨c4_amended_partial_clamping.2.1 ⟨1, 1, 1, 3⟩ (by decide),
   c4_amended_partial_clamping.2.2.1 ⟨1, 1, 1, 3⟩ (by decide) (by decide)⟩

theorem pairUp_length_double (l : List Nat) :
    2 * (pairUp l).length = l.length * (l.length - 1) := by
  induction l with
  | nil => rfl
  | cons x rest ih =>
    simp only [pairUp, List.length_append, List.length_map, List.length_cons,
      Nat.add_sub_cancel]
    calc 2 * (rest.length + (pairUp rest).length)
        = 2 * rest.length + 2 * (pairUp rest).length := by ring
      _ = 2 * rest.length + rest.length * (rest.length - 1) := by rw [ih]
      _ = (rest.length + 1) * rest.length := by
          cases rest.length with
          | zero => rfl
          | succ m => simp only [Nat.succ_sub_one]; ring

theorem pairUp_length (l : List Nat) :
    (pairUp l).length = l.length * (l.length - 1) / 2 := by
  have h := pairUp_length_double l
  generalize hA : l.length * (l.length - 1) = A at h ⊢
  omega

theorem pairUp_mem {l : List Nat} {p : Nat × Nat} (hp : p ∈ pairUp l) :
    p.1 ∈ l ∧ p.2 ∈ l := by
  induction l with
  | nil => simp [pairUp] at hp
  | cons x rest ih =>
    simp only [pairUp, List.mem_append, List.mem_map] at hp
    rcases hp with ⟨y, hy, rfl⟩ | hp
    · exact ⟨List.mem_cons_self _ _, List.mem_cons_of_mem _ hy⟩
    · obtain ⟨h1, h2⟩ := ih hp
      exact ⟨List.mem_cons_of_mem _ h1, List.mem_cons_of_mem _ h2⟩

theorem pairUp_order (l : List Nat) (p : Nat × Nat) (hp : p ∈ pairUp l) :
    ∃ l₁ l₂ l₃, l = l₁ ++ p.1 :: l₂ ++ p.2 :: l₃ := by
  induction l with
  | nil => simp [pairUp] at hp
  | cons x rest ih =>
    simp only [pairUp, List.mem_append, List.mem_map] at hp
    rcases hp with ⟨y, hy, rfl⟩ | hp
    · obtain ⟨s, t, rfl⟩ := List.append_of_mem hy
      exact ⟨[], s, t, rfl⟩
    · obtain ⟨l₁, l₂, l₃, rfl⟩ := ih hp
      exact ⟨x :: l₁, l₂, l₃, rfl⟩

theorem pairUp_count (a b : Nat) (hab : a ≠ b) :
    ∀ (l : List Nat), l.Nodup → a ∈ l → b ∈ l →
      (pairUp l).countP
        (fun p => (p.1 == a && p.2 == b) || (p.1 == b && p.2 == a)) = 1 := by
  intro l
  induction l with
  | nil => intro _ ha _; simp at ha
  | cons x rest ih =>
    intro hl ha hb
    obtain ⟨hx, hnd⟩ := List.nodup_cons.mp hl
    have hzero : ∀ (pr : Nat × Nat → Bool) (u : Nat), u ∉ rest →
        (∀ p : Nat × Nat, pr p = true → p.1 = u ∨ p.2 = u) →
        (pairUp rest).countP pr = 0 := by
      intro pr u hu himp
      rw [List.countP_eq_zero]
      intro p hp hpr
      rcases himp p hpr with h | h
      · exact hu (h ▸ (pairUp_mem hp).1)
      · exact hu (h ▸ (pairUp_mem hp).2)
    simp only [pairUp, List.countP_append, List.countP_map]
    by_cases hxa : x = a
    · subst hxa
      have hbr : b ∈ rest := by
        rcases List.mem_cons.mp hb with h | h
        · exact absurd h.symm hab
        · exact h
      have hmap : ((fun p : Nat × Nat => (p.1 == x && p.2 == b) || (p.1 == b && p.2 == x)) ∘
          fun y => (x, y)) = fun y => y == b := by
        funext y
        simp [Function.comp, hab]
      have hrest : (pairUp rest).countP
          (fun p => (p.1 == x && p.2 == b) || (p.1 == b && p.2 == x)) = 0 := by
        apply hzero _ x hx
        intro p hp
        simp only [Bool.or_eq_true, Bool.and_eq_true, beq_iff_eq] at hp
        rcases hp with ⟨h1, _⟩ | ⟨_, h2⟩
        · exact Or.inl h1
        · exact Or.inr h2
      rw [hmap, hrest]
      have hcount := List.count_eq_one_of_mem hnd hbr
      simpa [List.count_eq_countP] using hcount
    · by_cases hxb : x = b
      · subst hxb
        have har : a ∈ rest := by
          rcases List.mem_cons.mp ha with h | h
          · exact absurd h.symm hxa
          · exact h
        have hmap : ((fun p : Nat × Nat => (p.1 == a && p.2 == x) || (p.1 == x && p.2 == a)) ∘
            fun y => (x, y)) = fun y => y == a := by
          funext y
          by_cases hy : y = a <;> simp [Function.comp, hxa, hy]
        have hrest : (pairUp rest).countP
            (fun p => (p.1 == a && p.2 == x) || (p.1 == x && p.2 == a)) = 0 := by
          apply hzero _ x hx
          intro p hp
          simp only [Bool.or_eq_true, Bool.and_eq_true, beq_iff_eq] at hp
          rcases hp with ⟨_, h2⟩ | ⟨h1, _⟩
          · exact Or.inr h2
          · exact Or.inl h1
        rw [hmap, hrest]
        have hcount := List.count_eq_one_of_mem hnd har
        simpa [List.count_eq_countP] using hcount
      · have har : a ∈ rest := by
          rcases List.mem_cons.mp ha with h | h
          · exact absurd h.symm hxa
          · exact h
        have hbr : b ∈ rest := by
          rcases List.mem_cons.mp hb with h | h
          · exact absurd h.symm hxb
          · exact h
        have hmap : ((fun p : Nat × Nat => (p.1 == a && p.2 == b) || (p.1 == b && p.2 == a)) ∘
            fun y => (x, y)) = fun _ => false := by
          funext y
          simp [Function.comp, hxa, hxb]
        rw [hmap, ih hnd har hbr]
        simp

/-- C3: with N ≥ 2 rostered players (distinct ids), fixture generation
succeeds and the division ends up with exactly N·(N−1)/2 fixtures —
one per unordered pair of distinct roster ids, each pairing a player
with a later roster entry — every fixture fresh (unplayed, no winner,
no stored grid), every player's standings reset to
{played 0, won 0, lost 0, points 0}, and the output independent of
whatever fixtures the division held before (full replacement). -/
theorem c3_generate_fixtures_full_reset (divId : Nat) (st : DivisionState)
    (h2 : 2 ≤ st.players.length) (hnd : (st.players.map Player.id).Nodup) :
    ∃ st', generateFixturesA divId st = .ok st' ∧
      st'.fixtures.length = st.players.length * (st.players.length - 1) / 2 ∧
      (∀ a b : Nat, a ∈ st.players.map Player.id → b ∈ st.players.map Player.id → a ≠ b →
        st'.fixtures.countP
          (fun f => (f.player1_id == a && f.player2_id == b) ||
            (f.player1_id == b && f.player2_id == a)) = 1) ∧
      (∀ f ∈ st'.fixtures, f.division_id = divId ∧ f.played = false ∧
        f.winner_id = none ∧ f.set_scores = none ∧
        ∃ l₁ l₂ l₃, st.players.map Player.id =
          l₁ ++ f.player1_id :: l₂ ++ f.player2_id :: l₃) ∧
      (∀ p ∈ st'.players, p.stats = ⟨0, 0, 0, 0⟩) ∧
      st'.players.map Player.id = st.players.map Player.id ∧
      (∀ fs : List Fixture, generateFixturesA divId ⟨st.players, fs⟩ = .ok st') := by
  have hne : ¬ st.players.length < 2 := by omega
  refine ⟨⟨st.players.map resetStats,
      (pairUp (st.players.map Player.id)).map fun pr => newFixture divId pr.1 pr.2⟩,
    by simp [generateFixturesA, hne], ?_, ?_, ?_, ?_, ?_, ?_⟩
  · simp [pairUp_length]
  · intro a b ha hb hab
    have h := pairUp_count a b hab (st.players.map Player.id) hnd ha hb
    rw [List.countP_map]
    simpa [Function.comp, newFixture] using h
  · intro f hf
    simp only [List.mem_map] at hf
    obtain ⟨pr, hpr, rfl⟩ := hf
    exact ⟨rfl, rfl, rfl, rfl, pairUp_order _ pr hpr⟩
  · intro p hp
    simp only [List.mem_map] at hp
    obtain ⟨q, _, rfl⟩ := hp
    rfl
  · simp [resetStats]
  · intro fs
    simp [generateFixturesA, hne]

/-- C3 witness: a four-player division (non-zero standings, one stale
fixture) regenerates to six fixtures and all-zero standings. -/
theorem c3_generate_fixtures_full_reset_witness :
    ∃ st', generateFixturesA 1 ⟨[⟨10, ⟨1, 2, 3, 4⟩⟩, ⟨20, ⟨5, 6, 7, 8⟩⟩,
        ⟨30, ⟨0, 1, 0, 1⟩⟩, ⟨40, ⟨2, 0, 2, 0⟩⟩], [newFixture 1 10 20]⟩ = .ok st' ∧
      st'.fixtures.length = 6 ∧ ∀ p ∈ st'.players, p.stats = ⟨0, 0, 0, 0⟩ := by
  obtain ⟨st', h1, h2, -, -, h5, -, -⟩ :=
    c3_generate_fixtures_full_reset 1
      ⟨[⟨10, ⟨1, 2, 3, 4⟩⟩, ⟨20, ⟨5, 6, 7, 8⟩⟩, ⟨30, ⟨0, 1, 0, 1⟩⟩, ⟨40, ⟨2, 0, 2, 0⟩⟩],
        [newFixture 1 10 20]⟩ (by decide) (by decide)
  exact ⟨st', h1, by simpa using h2, h5⟩
